import Mathlib

/-!
Verification of the read-path resilience core of a joke-serving HTTP server
(`part_000`): an in-memory cache with time-based invalidation
(`isCacheValid` / `updateCache`), a bounded retry loop around the database
(`fetchJokesFromDB`), and the `/post` handler with its stale-cache fallback.

The embedding is a shallow, state-passing translation of the JavaScript:
times are `Int` milliseconds (`Date.now()`), the shared mutable
`jokesCache` becomes an explicit `CacheState` value threaded through the
handler, and the database is abstracted as a function from attempt index
to the outcome of that attempt (connection failure, query failure, or a
row set).
-/

/-- A record returned by `SELECT * FROM jokes`; the core only passes the
fields through. -/
structure Record where
  title : String
  body : String
deriving DecidableEq, Repr

/-- The shared mutable cache (`jokesCache` in the source):
`{ data: [], lastUpdated: null, isValid: false }` initially.
`lastUpdated` is `null` or a `Date.now()` value, modelled as `Option Int`. -/
structure CacheState where
  data : List Record
  lastUpdated : Option Int
  isValid : Bool
deriving DecidableEq, Repr

/-- Initial cache state from the source: empty data, `lastUpdated: null`,
`isValid: false`. -/
def initialCache : CacheState := ⟨[], none, false⟩

/-- `CACHE_DURATION = 5 * 60 * 1000` (milliseconds). -/
def CACHE_DURATION : Int := 5 * 60 * 1000

/-- `isCacheValid`: `jokesCache.isValid && jokesCache.lastUpdated &&
(Date.now() - jokesCache.lastUpdated) < CACHE_DURATION`.
JavaScript truthiness of `lastUpdated`: `null` and `0` are falsy, any
other number is truthy, hence the `t != 0` conjunct. -/
def isCacheValid (now : Int) (c : CacheState) : Bool :=
  c.isValid &&
    (match c.lastUpdated with
     | none => false
     | some t => t != 0 && decide (now - t < CACHE_DURATION))

/-- `updateCache(data)`: wholesale reassignment
`jokesCache = { data, lastUpdated: Date.now(), isValid: true }`.
The previous entry is not consulted, so the function does not take it. -/
def updateCache (now : Int) (data : List Record) : CacheState :=
  ⟨data, some now, true⟩

/-- Outcome of one database attempt inside `fetchJokesFromDB`:
`pool.getConnection` fails (`connError`), the connection is obtained but
`connection.query` fails (`queryError`), or the query returns rows. -/
inductive AttemptOutcome where
  | connError
  | queryError
  | success (rows : List Record)
deriving DecidableEq, Repr

/-- Whether the attempt's outcome is a success (short-circuits the loop). -/
def attemptSucceeds : AttemptOutcome → Bool
  | .success _ => true
  | _ => false

/-- Resource events of one attempt: connection acquisition from the pool,
the query, and `connection.release()`. -/
inductive DbEvent where
  | acquire
  | query
  | release
deriving DecidableEq, Repr

/-- The sequence of resource events one attempt performs, read off the
source: on `getConnection` error nothing is acquired; otherwise the
connection is acquired, the query issued, and `connection.release()` runs
first thing in the query callback, before the error check, on both the
error and the result path. -/
def attemptEvents : AttemptOutcome → List DbEvent
  | .connError => []
  | .queryError => [.acquire, .query, .release]
  | .success _ => [.acquire, .query, .release]

/-- Message of the error rejected when `pool.getConnection` fails. -/
def msgErrorConnecting : String := "Error connecting to the database"

/-- Message of the error rejected when `connection.query` fails. -/
def msgErrorFetching : String := "Error fetching data from the database"

/-- Message of the terminal error thrown after the retry loop exhausts. -/
def msgUnableRetries : String := "Unable to connect to the database after multiple retries"

/-- The error message an attempt rejects with, if it fails. -/
def attemptError : AttemptOutcome → Option String
  | .connError => some msgErrorConnecting
  | .queryError => some msgErrorFetching
  | .success _ => none

/-- `MAX_RETRIES = 3`. -/
def MAX_RETRIES : Nat := 3

/-- `RETRY_DELAY = 1000` (milliseconds). -/
def RETRY_DELAY : Nat := 1000

/-- Result of a whole `fetchJokesFromDB` run: the value returned or the
message of the error thrown, together with how many attempts were made and
how many `RETRY_DELAY` sleeps were awaited. -/
structure FetchResult where
  result : Except String (List Record)
  attempts : Nat
  delays : Nat
deriving Repr

/-- The `while (retries < MAX_RETRIES)` loop of `fetchJokesFromDB`,
with `fuel = MAX_RETRIES - retries`. A successful attempt returns its
rows at once; a failed attempt is caught, `retries++`, and the fixed
delay is awaited (this happens inside the `catch`, so it runs after every
failed attempt, the last one included). When the loop exits, a fresh
`Error` with message `msgUnableRetries` is thrown: the caught per-attempt
error is only logged, never rethrown. -/
def fetchGo (gw : Nat → AttemptOutcome) : Nat → Nat → Nat → FetchResult
  | 0, attempts, delays => ⟨.error msgUnableRetries, attempts, delays⟩
  | fuel + 1, attempts, delays =>
    match gw attempts with
    | .success rows => ⟨.ok rows, attempts + 1, delays⟩
    | _ => fetchGo gw fuel (attempts + 1) (delays + 1)

/-- `fetchJokesFromDB`, run against gateway behaviour `gw` (the outcome of
attempt `i` is `gw i`, counting from 0). -/
def fetchJokesFromDB (gw : Nat → AttemptOutcome) : FetchResult :=
  fetchGo gw MAX_RETRIES 0 0

/-- The `Cache-Control` header set on a `/post` response: none (the
cache-hit fast path sets no header), `public, max-age=300` (fresh fetch),
or `public, max-age=60` (stale fallback). -/
inductive CacheCtl where
  | noHeader
  | maxAge300
  | maxAge60
deriving DecidableEq, Repr

/-- A `/post` response: a JSON array of records with a cache-control
header, or a JSON error object with an HTTP status, `error` kind and
`message`. -/
inductive Response where
  | jsonData (cc : CacheCtl) (data : List Record)
  | jsonError (status : Nat) (error : String) (message : String)
deriving DecidableEq, Repr

/-- Everything observable about one `/post` request: the response sent,
the cache state after the request, whether `fetchJokesFromDB` was
invoked, and how many database attempts were made. -/
structure HandlerOutcome where
  response : Response
  state : CacheState
  fetcherInvoked : Bool
  gatewayAttempts : Nat
deriving DecidableEq, Repr

/-- The `GET /post` handler. If `isCacheValid()` it returns the cached
data at once (no `Cache-Control` header is set on this path). Otherwise
it runs `fetchJokesFromDB`; on success it calls `updateCache` and
responds with `max-age=300`; on a thrown error it serves the cached data
with `max-age=60` whenever `jokesCache.data.length > 0`, else responds
503 — `Database connection error` if the caught error's message equals
`msgErrorConnecting`, the generic `Service temporarily unavailable`
otherwise. -/
def getRecords (gw : Nat → AttemptOutcome) (now : Int) (s : CacheState) :
    HandlerOutcome :=
  if isCacheValid now s then
    ⟨.jsonData .noHeader s.data, s, false, 0⟩
  else
    let fr := fetchJokesFromDB gw
    match fr.result with
    | .ok jokes =>
        ⟨.jsonData .maxAge300 jokes, updateCache now jokes, true, fr.attempts⟩
    | .error errMsg =>
        if s.data.length > 0 then
          ⟨.jsonData .maxAge60 s.data, s, true, fr.attempts⟩
        else if errMsg = msgErrorConnecting then
          ⟨.jsonError 503 "Database connection error"
            "The database is currently unavailable. Please try again later.",
            s, true, fr.attempts⟩
        else
          ⟨.jsonError 503 "Service temporarily unavailable"
            "Please try again later", s, true, fr.attempts⟩

/-! ## Helper lemmas about the retry loop -/

/-- A failed attempt takes one step of the loop: `retries++` and one
`RETRY_DELAY` sleep before re-entering the `while` check. -/
theorem fetchGo_fail_step (gw : Nat → AttemptOutcome) (fuel a d : Nat)
    (hfail : attemptSucceeds (gw a) = false) :
    fetchGo gw (fuel + 1) a d = fetchGo gw fuel (a + 1) (d + 1) := by
  rcases hg : gw a with _ | _ | r
  · simp [fetchGo, hg]
  · simp [fetchGo, hg]
  · rw [hg] at hfail
    simp [attemptSucceeds] at hfail

/-- A successful attempt returns its rows at once. -/
theorem fetchGo_success_step (gw : Nat → AttemptOutcome) (fuel a d : Nat)
    (rows : List Record) (hg : gw a = .success rows) :
    fetchGo gw (fuel + 1) a d = ⟨.ok rows, a + 1, d⟩ := by
  simp [fetchGo, hg]

/-- The only error `fetchGo` ever reports is the fresh terminal message:
the per-attempt causes are caught and discarded. -/
theorem fetchGo_error_msg (gw : Nat → AttemptOutcome) :
    ∀ fuel a d e, (fetchGo gw fuel a d).result = .error e → e = msgUnableRetries := by
  intro fuel
  induction fuel with
  | zero =>
    intro a d e h
    simp [fetchGo] at h
    exact h.symm
  | succ n ih =>
    intro a d e h
    rcases hg : gw a with _ | _ | r
    · exact ih _ _ _ (by simpa [fetchGo, hg] using h)
    · exact ih _ _ _ (by simpa [fetchGo, hg] using h)
    · rw [fetchGo_success_step gw n a d r hg] at h
      simp at h

/-- The terminal error of `fetchJokesFromDB` is always `msgUnableRetries`. -/
theorem fetch_error_msg (gw : Nat → AttemptOutcome) (e : String)
    (h : (fetchJokesFromDB gw).result = .error e) : e = msgUnableRetries :=
  fetchGo_error_msg gw MAX_RETRIES 0 0 e h

/-- When every one of the three attempts fails, the run makes 3 attempts,
sleeps 3 times (once after each failure, the last included) and throws
the terminal error. -/
theorem fetch_allFail (gw : Nat → AttemptOutcome)
    (h0 : attemptSucceeds (gw 0) = false)
    (h1 : attemptSucceeds (gw 1) = false)
    (h2 : attemptSucceeds (gw 2) = false) :
    fetchJokesFromDB gw = ⟨.error msgUnableRetries, 3, 3⟩ :=
  calc fetchJokesFromDB gw
      = fetchGo gw (2 + 1) 0 0 := rfl
    _ = fetchGo gw (1 + 1) 1 1 := fetchGo_fail_step gw 2 0 0 h0
    _ = fetchGo gw (0 + 1) 2 2 := fetchGo_fail_step gw 1 1 1 h1
    _ = fetchGo gw 0 3 3 := fetchGo_fail_step gw 0 2 2 h2
    _ = ⟨.error msgUnableRetries, 3, 3⟩ := rfl

/-! ## Claim theorems -/

/-- Claim C6: `isCacheValid` is true iff the valid flag is set,
`lastUpdated` is set, and `now - lastUpdated` is under the fixed 5-minute
`CACHE_DURATION`; evaluated against the clock passed in, so with no
intervening update it turns false once the TTL has elapsed past
`lastUpdated`. Stated for every state whose timestamp, when set, is
positive — true of every reachable state, since `Date.now()` is positive
and the initial timestamp is `null`. -/
theorem isCacheValid_iff (now : Int) (c : CacheState)
    (hreach : c.lastUpdated = none ∨ ∃ t, c.lastUpdated = some t ∧ 0 < t) :
    (isCacheValid now c = true ↔
      c.isValid = true ∧ ∃ t, c.lastUpdated = some t ∧ now - t < CACHE_DURATION) ∧
    (∀ later t, c.lastUpdated = some t → CACHE_DURATION ≤ later - t →
      isCacheValid later c = false) := by
  constructor
  · rcases hreach with h | ⟨t, ht, hpos⟩
    · simp [isCacheValid, h]
    · have hne : t ≠ 0 := ne_of_gt hpos
      simp [isCacheValid, ht, hne]
  · intro later t ht hge
    have hdec : decide (later - t < CACHE_DURATION) = false := by
      simp
      omega
    simp [isCacheValid, ht, hdec]

/-- Witness for C6 at a concrete state: valid just after an update,
invalid once 5 minutes have passed. -/
theorem isCacheValid_iff_witness :
    isCacheValid 1000 ⟨[], some 400, true⟩ = true ∧
    isCacheValid 300401 ⟨[], some 400, true⟩ = false := by
  have h := isCacheValid_iff 1000 ⟨[], some 400, true⟩
    (Or.inr ⟨400, rfl, by decide⟩)
  exact ⟨h.1.mpr ⟨rfl, 400, rfl, by decide⟩, h.2 300401 400 rfl (by decide)⟩

/-- Counterexample to claim C3: on the cache-hit fast path the handler
calls `res.json` without setting any `Cache-Control` header, so a valid
cache is served without the claimed fresh (max-age=300) hint. -/
theorem fastPath_fresh_hint_cex :
    isCacheValid 1000 ⟨[⟨"t", "b"⟩], some 400, true⟩ = true ∧
    (getRecords (fun _ => .connError) 1000 ⟨[⟨"t", "b"⟩], some 400, true⟩).response =
      .jsonData .noHeader [⟨"t", "b"⟩] ∧
    (getRecords (fun _ => .connError) 1000 ⟨[⟨"t", "b"⟩], some 400, true⟩).response ≠
      .jsonData .maxAge300 [⟨"t", "b"⟩] := by
  exact ⟨by decide, rfl, by decide⟩

/-- Claim C3 as amended: whenever `isCacheValid` holds at the start of the
call, the handler returns the cached data immediately — with no
`Cache-Control` header rather than the fresh hint — the cache is left
unchanged, and neither the retrying fetcher nor the gateway is invoked. -/
theorem fastPath_serves_cache (gw : Nat → AttemptOutcome) (now : Int)
    (s : CacheState) (h : isCacheValid now s = true) :
    getRecords gw now s = ⟨.jsonData .noHeader s.data, s, false, 0⟩ := by
  simp [getRecords, h]

/-- Witness for the amended C3 at a concrete valid cache. -/
theorem fastPath_serves_cache_witness :
    getRecords (fun _ => .connError) 1000 ⟨[⟨"t", "b"⟩], some 400, true⟩ =
      ⟨.jsonData .noHeader [⟨"t", "b"⟩], ⟨[⟨"t", "b"⟩], some 400, true⟩, false, 0⟩ :=
  fastPath_serves_cache _ 1000 _ (by decide)

/-- Counterexample to claim C4: when all three attempts fail, a
`RETRY_DELAY` sleep follows every failed attempt, the third and last
included — 3 delays for 3 attempts — whereas a delay occurring only
between consecutive attempts would give at most 2. -/
theorem retry_delay_after_last_failure_cex :
    (fetchJokesFromDB fun _ => .connError).attempts = 3 ∧
    (fetchJokesFromDB fun _ => .connError).delays = 3 ∧
    (fetchJokesFromDB fun _ => .connError).delays ≠
      (fetchJokesFromDB fun _ => .connError).attempts - 1 := by
  exact ⟨rfl, rfl, by decide⟩

/-- Claim C4 as amended: `fetch()` makes up to 3 attempts; a success at
position k ≤ 3 returns its rows at once with no further attempts and
exactly k−1 delays (one after each preceding failure); when all 3
attempts fail, each failure — the last included — is followed by the
fixed 1-second delay (3 delays in total) and the terminal error is
propagated with no further attempt. -/
theorem fetch_retry_behaviour (gw : Nat → AttemptOutcome) :
    (∀ k rows, k < MAX_RETRIES → (∀ i, i < k → attemptSucceeds (gw i) = false) →
      gw k = .success rows → fetchJokesFromDB gw = ⟨.ok rows, k + 1, k⟩) ∧
    ((∀ i, i < MAX_RETRIES → attemptSucceeds (gw i) = false) →
      fetchJokesFromDB gw = ⟨.error msgUnableRetries, MAX_RETRIES, MAX_RETRIES⟩) := by
  constructor
  · intro k rows hk hfail hg
    have hk3 : k < 3 := hk
    interval_cases k
    · calc fetchJokesFromDB gw
          = fetchGo gw (2 + 1) 0 0 := rfl
        _ = ⟨.ok rows, 0 + 1, 0⟩ := fetchGo_success_step gw 2 0 0 rows hg
    · calc fetchJokesFromDB gw
          = fetchGo gw (2 + 1) 0 0 := rfl
        _ = fetchGo gw (1 + 1) 1 1 := fetchGo_fail_step gw 2 0 0 (hfail 0 (by decide))
        _ = ⟨.ok rows, 1 + 1, 1⟩ := fetchGo_success_step gw 1 1 1 rows hg
    · calc fetchJokesFromDB gw
          = fetchGo gw (2 + 1) 0 0 := rfl
        _ = fetchGo gw (1 + 1) 1 1 := fetchGo_fail_step gw 2 0 0 (hfail 0 (by decide))
        _ = fetchGo gw (0 + 1) 2 2 := fetchGo_fail_step gw 1 1 1 (hfail 1 (by decide))
        _ = ⟨.ok rows, 2 + 1, 2⟩ := fetchGo_success_step gw 0 2 2 rows hg
  · intro hfail
    exact fetch_allFail gw (hfail 0 (by decide)) (hfail 1 (by decide))
      (hfail 2 (by decide))

/-- Witness for the amended C4: a gateway failing once then succeeding
gives 2 attempts and 1 delay; a gateway failing always gives the terminal
error after 3 attempts and 3 delays. -/
theorem fetch_retry_behaviour_witness :
    fetchJokesFromDB (fun i => if i = 0 then .connError else .success [⟨"a", "b"⟩]) =
      ⟨.ok [⟨"a", "b"⟩], 2, 1⟩ ∧
    fetchJokesFromDB (fun _ => .queryError) = ⟨.error msgUnableRetries, 3, 3⟩ :=
  ⟨(fetch_retry_behaviour _).1 1 [⟨"a", "b"⟩] (by decide) (by decide) rfl,
   (fetch_retry_behaviour _).2 (by decide)⟩

/-- Claim C1, evaluated at the failing input: with an empty cache and
every attempt failing at handle acquisition (`getConnection`), the
handler responds with the generic `Service temporarily unavailable`
error, not `Database connection error` — `fetchJokesFromDB` throws a
fresh terminal error whose message is `msgUnableRetries`, discarding the
last cause, so the handler's comparison with `msgErrorConnecting` never
matches. -/
theorem coldStart_cause_discarded :
    (getRecords (fun _ => .connError) 0 initialCache).response =
      .jsonError 503 "Service temporarily unavailable" "Please try again later" ∧
    attemptError .connError = some msgErrorConnecting ∧
    (fetchJokesFromDB fun _ => .connError).result = .error msgUnableRetries ∧
    msgUnableRetries ≠ msgErrorConnecting := by
  exact ⟨rfl, rfl, rfl, by decide⟩

/-- Claim C2: a call on which the fetch runs and fails terminally while
the cache holds at least one record (whatever its validity or age)
returns the cached data with the stale `max-age=60` hint, leaves the
cache unchanged, and raises no error. -/
theorem staleFallback_serves_cache (gw : Nat → AttemptOutcome) (now : Int)
    (s : CacheState) (e : String)
    (hvalid : isCacheValid now s = false)
    (hfetch : (fetchJokesFromDB gw).result = .error e)
    (hdata : 0 < s.data.length) :
    getRecords gw now s =
      ⟨.jsonData .maxAge60 s.data, s, true, (fetchJokesFromDB gw).attempts⟩ := by
  simp [getRecords, hvalid, hfetch, hdata]

/-- Witness for C2: a stale (never-valid-flagged) single-record cache is
served with the 60-second hint when every attempt fails. -/
theorem staleFallback_serves_cache_witness :
    getRecords (fun _ => .connError) 0 ⟨[⟨"a", "b"⟩], none, false⟩ =
      ⟨.jsonData .maxAge60 [⟨"a", "b"⟩], ⟨[⟨"a", "b"⟩], none, false⟩, true, 3⟩ :=
  staleFallback_serves_cache _ 0 _ msgUnableRetries rfl rfl (by decide)

/-- Claim C5: the handler responds with a structured error exactly when
the cache is invalid, the fetch fails terminally, and the cache holds no
records (cold start); and any error response carries status 503 with one
of the two fixed kind/message pairs. -/
theorem coldStart_failure (gw : Nat → AttemptOutcome) (now : Int) (s : CacheState) :
    ((∃ st er m, (getRecords gw now s).response = .jsonError st er m) ↔
      isCacheValid now s = false ∧
        (∃ e, (fetchJokesFromDB gw).result = .error e) ∧ s.data = []) ∧
    (∀ st er m, (getRecords gw now s).response = .jsonError st er m →
      st = 503 ∧
        ((er = "Database connection error" ∧
            m = "The database is currently unavailable. Please try again later.") ∨
          (er = "Service temporarily unavailable" ∧ m = "Please try again later"))) := by
  cases hv : isCacheValid now s with
  | true =>
    simp [getRecords, hv]
  | false =>
    rcases hr : (fetchJokesFromDB gw).result with e | rows
    · by_cases hd : s.data.length > 0
      · have hne : s.data ≠ [] := by
          intro hnil
          rw [hnil] at hd
          simp at hd
        simp [getRecords, hv, hr, hd, hne]
      · have hnil : s.data = [] := by
          have hlen : s.data.length = 0 := by omega
          exact List.length_eq_zero.mp hlen
        by_cases he : e = msgErrorConnecting
        · simp [getRecords, hv, hr, hd, hnil, he]
        · simp [getRecords, hv, hr, hd, hnil, he]
    · simp [getRecords, hv, hr]

/-- Witness for C5: the cold-start scenario produces a structured error. -/
theorem coldStart_failure_witness :
    ∃ st er m, (getRecords (fun _ => .queryError) 0 initialCache).response =
      .jsonError st er m :=
  (coldStart_failure (fun _ => .queryError) 0 initialCache).1.mpr
    ⟨rfl, ⟨msgUnableRetries, rfl⟩, rfl⟩

/-- Claim C7: `updateCache` replaces the entry wholesale with
`{data, lastUpdated: now, valid: true}` regardless of the previous entry,
it is the only operation that writes the cache — the fast path and every
fetch-failure path return the state untouched — and the only state the
handler ever writes is the wholesale replacement after a successful
fetch. -/
theorem cache_mutation_discipline (gw : Nat → AttemptOutcome) (now : Int)
    (s : CacheState) :
    (∀ d, updateCache now d = ⟨d, some now, true⟩) ∧
    (isCacheValid now s = true → (getRecords gw now s).state = s) ∧
    (∀ e, (fetchJokesFromDB gw).result = .error e → (getRecords gw now s).state = s) ∧
    (∀ rows, isCacheValid now s = false → (fetchJokesFromDB gw).result = .ok rows →
      (getRecords gw now s).state = ⟨rows, some now, true⟩) := by
  refine ⟨fun d => rfl, fun hv => by simp [getRecords, hv], ?_, ?_⟩
  · intro e hfetch
    cases hv : isCacheValid now s with
    | true => simp [getRecords, hv]
    | false =>
      simp only [getRecords, hv, Bool.false_eq_true, if_false, hfetch]
      split
      · rfl
      · split <;> rfl
  · intro rows hv hfetch
    simp [getRecords, hv, hfetch, updateCache]

/-- Witness for C7: a successful fetch on an invalid cache installs the
wholesale-replaced entry. -/
theorem cache_mutation_discipline_witness :
    (getRecords (fun _ => .success [⟨"a", "b"⟩]) 7 initialCache).state =
      ⟨[⟨"a", "b"⟩], some 7, true⟩ :=
  (cache_mutation_discipline (fun _ => .success [⟨"a", "b"⟩]) 7 initialCache).2.2.2
    [⟨"a", "b"⟩] rfl rfl

/-- Claim C8: in every attempt that acquires a data-source handle the
handle is released exactly once — on the query-success path and on the
query-failure path alike (the release runs before the error check, so it
happens even when the attempt's result is discarded) — and an attempt
that never acquired a handle releases nothing. -/
theorem handle_release_discipline (o : AttemptOutcome) :
    (DbEvent.acquire ∈ attemptEvents o →
      (attemptEvents o).count DbEvent.release = 1) ∧
    (DbEvent.acquire ∉ attemptEvents o →
      (attemptEvents o).count DbEvent.release = 0) ∧
    (o = .queryError → (attemptEvents o).count DbEvent.release = 1) ∧
    (∀ rows, o = .success rows → (attemptEvents o).count DbEvent.release = 1) := by
  cases o <;> refine ⟨?_, ?_, ?_, ?_⟩ <;> intros <;>
    first
    | rfl
    | simp_all [attemptEvents]

/-- Witness for C8: the query-failure attempt acquires and releases
exactly once. -/
theorem handle_release_discipline_witness :
    (attemptEvents .queryError).count DbEvent.release = 1 :=
  (handle_release_discipline .queryError).1 (by decide)

/-- Claim C9: after a successful fetch that returned zero records, the
cache is valid and holds the empty sequence; within the TTL the handler
serves that empty sequence from the fast path without touching the
fetcher; but once the cache is invalid again, a terminal fetch failure
surfaces the 503 error (the generic one, since the terminal message never
matches the connection-error message), because the stale fallback
requires at least one record. -/
theorem emptyData_fallback_gap (gw : Nat → AttemptOutcome) (t now later : Int)
    (e : String)
    (ht : 0 < t) (hfresh : now - t < CACHE_DURATION)
    (hstale : isCacheValid later (updateCache t []) = false)
    (hfetch : (fetchJokesFromDB gw).result = .error e) :
    (updateCache t ([] : List Record)).isValid = true ∧
    getRecords gw now (updateCache t []) =
      ⟨.jsonData .noHeader [], updateCache t [], false, 0⟩ ∧
    (getRecords gw later (updateCache t [])).response =
      .jsonError 503 "Service temporarily unavailable" "Please try again later" := by
  have hne : t ≠ 0 := ne_of_gt ht
  have hvalid : isCacheValid now (⟨[], some t, true⟩ : CacheState) = true := by
    simp [isCacheValid, hne, hfresh]
  have hstale2 : isCacheValid later (⟨[], some t, true⟩ : CacheState) = false := hstale
  have hmsg : e = msgUnableRetries := fetch_error_msg gw e hfetch
  have hnc : e ≠ msgErrorConnecting := by
    rw [hmsg]
    decide
  refine ⟨rfl, ?_, ?_⟩
  · show getRecords gw now ⟨[], some t, true⟩ = _
    simp [getRecords, hvalid, updateCache]
  · show (getRecords gw later ⟨[], some t, true⟩).response = _
    simp [getRecords, hstale2, hfetch, hnc]

/-- Witness for C9 at concrete times: update at t=5 with no records,
fast path at now=6, cold 503 at later=300006 with all attempts failing. -/
theorem emptyData_fallback_gap_witness :
    getRecords (fun _ => .connError) 6 (updateCache 5 []) =
      ⟨.jsonData .noHeader [], updateCache 5 [], false, 0⟩ ∧
    (getRecords (fun _ => .connError) 300006 (updateCache 5 [])).response =
      .jsonError 503 "Service temporarily unavailable" "Please try again later" := by
  have h := emptyData_fallback_gap (fun _ => .connError) 5 6 300006
    msgUnableRetries (by decide) (by decide) (by decide) rfl
  exact ⟨h.2.1, h.2.2⟩

/-- Claim C10: whenever the fetch fails terminally, the handler leaves
the cache exactly as it was — neither the stale-serve path nor either
error-response path writes to it. -/
theorem state_unchanged_on_fetch_failure (gw : Nat → AttemptOutcome) (now : Int)
    (s : CacheState) (e : String)
    (hfetch : (fetchJokesFromDB gw).result = .error e) :
    (getRecords gw now s).state = s := by
  cases hv : isCacheValid now s with
  | true => simp [getRecords, hv]
  | false =>
    simp only [getRecords, hv, Bool.false_eq_true, if_false, hfetch]
    split
    · rfl
    · split <;> rfl

/-- Witness for C10: an invalid one-record cache is untouched when every
attempt fails. -/
theorem state_unchanged_on_fetch_failure_witness :
    (getRecords (fun _ => .queryError) 9 ⟨[⟨"a", "b"⟩], some 1, false⟩).state =
      ⟨[⟨"a", "b"⟩], some 1, false⟩ :=
  state_unchanged_on_fetch_failure (fun _ => .queryError) 9
    ⟨[⟨"a", "b"⟩], some 1, false⟩ msgUnableRetries rfl
